import Mathlib

/-!
Verification of the CodeSpace backend core: the submission data model
(backend/models/Code.js), the code routes (backend/routes/code.js) and the
admin routes (backend/routes/admin.js), shallowly embedded in Lean.
Timestamps are modelled as natural numbers, Mongo document ids as natural
numbers, and the JSON request bodies as explicit parameters; absent JSON
fields are modelled with Option.
-/

namespace CodeSpace

/-- Role of a user, from the User schema enum. -/
inductive Role where
  | student
  | teacher
deriving DecidableEq, Repr

/-- Authenticated actor resolved from the bearer token (req.user). -/
structure Actor where
  id : Nat
  role : Role
deriving DecidableEq, Repr

/-- Language enum of the Code schema. -/
inductive Language where
  | javascript
  | python
  | java
  | cpp
  | c
deriving DecidableEq, Repr

/-- Status enum of the Code schema. -/
inductive Status where
  | submitted
  | analyzed
  | reviewed
  | graded
deriving DecidableEq, Repr

/-- Analysis subdocument of the Code schema: result text plus timestamp. -/
structure Analysis where
  result : String
  analyzedAt : Nat
deriving DecidableEq, Repr

/-- Feedback subdocument of the Code schema: grading teacher id, comment,
optional grade (null is modelled as none) and timestamp. -/
structure Feedback where
  teacher : Nat
  comment : String
  grade : Option Int
  feedbackAt : Nat
deriving DecidableEq, Repr

/-- Code submission document, from the Code schema in models/Code.js. -/
structure Code where
  user : Nat
  title : String
  description : Option String
  language : Language
  code : String
  analysis : Option Analysis
  feedback : Option Feedback
  status : Status
  tags : List String
deriving DecidableEq, Repr

/-- User document, from the User schema (fields used by the admin routes). -/
structure User where
  id : Nat
  username : String
  email : String
  role : Role
deriving DecidableEq, Repr

/-- Whitespace trimming as performed by the express-validator trim
sanitizer: leading and trailing whitespace characters are removed. -/
def jsTrim (s : String) : String :=
  String.mk (((s.toList.dropWhile Char.isWhitespace).reverse.dropWhile Char.isWhitespace).reverse)

/-- JavaScript truthiness of the grade value as it reaches the
addFeedback method: undefined and null (none) are falsy, and the number 0
is falsy as well. -/
def jsTruthy : Option Int → Bool
  | none => false
  | some n => n != 0

/-- Embedding of codeSchema.methods.addAnalysis: stores the analysis
subdocument and unconditionally sets status to analyzed. -/
def Code.addAnalysis (c : Code) (analysisResult : String) (now : Nat) : Code :=
  { c with
    analysis := some { result := analysisResult, analyzedAt := now }
    status := Status.analyzed }

/-- Embedding of codeSchema.methods.addFeedback: overwrites the feedback
subdocument and sets status with the JavaScript conditional
grade ? graded : reviewed, which tests truthiness of grade. -/
def Code.addFeedback (c : Code) (teacherId : Nat) (comment : String)
    (grade : Option Int) (now : Nat) : Code :=
  { c with
    feedback := some { teacher := teacherId, comment := comment, grade := grade, feedbackAt := now }
    status := if jsTruthy grade then Status.graded else Status.reviewed }

/-- Embedding of the update block of PUT /api/code/:id (after the ownership
check): title, language and code are always replaced; description is
replaced only when the supplied value is truthy (absent and the empty
string keep the prior value); tags are replaced whenever supplied, since a
JavaScript array, even an empty one, is truthy; status is reset to
submitted and the analysis is cleared. -/
def Code.applyEdit (c : Code) (title : String) (description : Option String)
    (language : Language) (content : String) (tags : Option (List String)) : Code :=
  { c with
    title := title
    description :=
      match description with
      | some d => if d = "" then c.description else some d
      | none => c.description
    language := language
    code := content
    tags :=
      match tags with
      | some t => t
      | none => c.tags
    status := Status.submitted
    analysis := none }

/-- Structured validation errors of the express-validator chain on
PUT /api/code/:id and POST /api/code (validateCode): the title sanitizer
trims before notEmpty, and code must be non-empty; the language enum is
enforced by the Language type itself. -/
def codeValidationErrors (title : String) (content : String) : List (String × String) :=
  (if jsTrim title = "" then [("title", "Title is required")] else []) ++
  (if content = "" then [("code", "Code is required")] else [])

/-- Handler of GET /api/code/:id on a found document: 403 unless the actor
owns the code or is a teacher. -/
def getCodeHandler (a : Actor) (c : Code) : Nat :=
  if c.user ≠ a.id ∧ a.role ≠ Role.teacher then 403 else 200

/-- Handler of DELETE /api/code/:id on a found document: 403 unless the
actor owns the code or is a teacher. -/
def deleteCodeHandler (a : Actor) (c : Code) : Nat :=
  if c.user ≠ a.id ∧ a.role ≠ Role.teacher then 403 else 200

/-- Handler of PUT /api/code/:id on a found document: validation result is
checked first (400 and no mutation), then ownership (403 and no mutation,
teachers included), then the update block runs; the stored title is the
trimmed request title because of the trim sanitizer. -/
def putCodeHandler (a : Actor) (c : Code) (title : String) (description : Option String)
    (language : Language) (content : String) (tags : Option (List String)) : Nat × Code :=
  if codeValidationErrors title content ≠ [] then (400, c)
  else if c.user ≠ a.id then (403, c)
  else (200, c.applyEdit (jsTrim title) description language content tags)

/-- Outcome of the external Ollama call made by POST /api/code/:id/analyze:
a successful response body, a refused connection (ECONNREFUSED) or any
other failure. -/
inductive AIOutcome where
  | ok (text : String)
  | connRefused
  | otherFailure
deriving DecidableEq, Repr

/-- Handler of POST /api/code/:id/analyze on a found, owned document: the
external call happens before any write, so both failure branches leave the
document untouched; a refused connection maps to 503 and every other
failure to 500; on success addAnalysis runs. -/
def analyzeHandler (c : Code) (outcome : AIOutcome) (now : Nat) : Nat × Code :=
  match outcome with
  | AIOutcome.ok text => (200, c.addAnalysis text now)
  | AIOutcome.connRefused => (503, c)
  | AIOutcome.otherFailure => (500, c)

/-- Structured validation errors of POST /api/admin/codes/:codeId/feedback:
the comment sanitizer trims before notEmpty, and an optional grade must be
an integer between 0 and 100. -/
def feedbackValidationErrors (comment : String) (grade : Option Int) : List (String × String) :=
  (if jsTrim comment = "" then [("comment", "Feedback comment is required")] else []) ++
  (match grade with
   | none => []
   | some g => if 0 ≤ g ∧ g ≤ 100 then [] else [("grade", "Grade must be between 0 and 100")])

/-- Handler of POST /api/admin/codes/:codeId/feedback on a found document:
validation is checked before any write (400 with the error list), then
addFeedback runs with the trimmed comment. -/
def feedbackHandler (teacherId : Nat) (comment : String) (grade : Option Int)
    (c : Code) (now : Nat) : Nat × Code :=
  if feedbackValidationErrors comment grade ≠ [] then (400, c)
  else (200, c.addFeedback teacherId (jsTrim comment) grade now)

/-- Duplicate lookup of POST /api/admin/users: one findOne query over the
disjunction of the email and username conditions, returning the first
matching user document. -/
def findExistingUser (users : List User) (email username : String) : Option User :=
  users.find? (fun u => u.email == email || u.username == username)

/-- Result of the user-creation handler. -/
inductive CreateUserResult where
  | conflict (msg : String)
  | created (u : User)
deriving DecidableEq, Repr

/-- Embedding of the duplicate check and creation step of
POST /api/admin/users (field validation, which precedes it, is orthogonal
to the conflict reason): when a duplicate is found the message is chosen by
testing the email of the found document first. -/
def createUserHandler (users : List User) (nextId : Nat)
    (username email : String) : CreateUserResult :=
  match findExistingUser users email username with
  | some u =>
      CreateUserResult.conflict
        (if u.email == email then "Email already exists" else "Username already taken")
  | none =>
      CreateUserResult.created { id := nextId, username := username, email := email, role := Role.student }

/-- Handler of DELETE /api/admin/users/:userId: 404 when the target is
absent, 403 and no change when the target is a teacher, otherwise the
target user and every code owned by the target are removed (document ids
are unique, so deleting the found document is removal by id). -/
def deleteUserHandler (users : List User) (codes : List Code) (targetId : Nat) :
    Nat × List User × List Code :=
  match users.find? (fun u => u.id == targetId) with
  | none => (404, users, codes)
  | some u =>
      if u.role = Role.teacher then (403, users, codes)
      else (200, users.filter (fun v => v.id != targetId),
                 codes.filter (fun c => c.user != targetId))

/-- Page extraction of GET /api/admin/students: skip (page - 1) * limit
documents, then take limit documents. -/
def paginate {α : Type} (l : List α) (page limit : Nat) : List α :=
  (l.drop ((page - 1) * limit)).take limit

/-- Total page count reported by GET /api/admin/students, the embedding of
Math.ceil(total / limit) on naturals. -/
def totalPages (total limit : Nat) : Nat :=
  (total + limit - 1) / limit

/-- Sample submission owned by user 1 in the initial state. -/
def sampleSubmitted : Code :=
  { user := 1, title := "Sum", description := none, language := Language.javascript,
    code := "let x = 1", analysis := none, feedback := none,
    status := Status.submitted, tags := [] }

/-- Sample submission owned by user 1 that already carries feedback with a
grade, in the graded state. -/
def gradedSample : Code :=
  { user := 1, title := "Graded", description := some "d", language := Language.python,
    code := "print(1)", analysis := none,
    feedback := some { teacher := 7, comment := "nice", grade := some 90, feedbackAt := 4 },
    status := Status.graded, tags := ["hw"] }

/-- Sample submission owned by user 1 with a nonempty tag list and a set
description. -/
def taggedSample : Code :=
  { user := 1, title := "Tagged", description := some "desc", language := Language.c,
    code := "int main(void)", analysis := none, feedback := none,
    status := Status.submitted, tags := ["arrays"] }

/-- Sample existing user for duplicate-check scenarios. -/
def existingAlice : User :=
  { id := 1, username := "alice", email := "alice@example.com", role := Role.student }

/-- Sample teacher actor whose id differs from the sample owners. -/
def teacherActor : Actor := { id := 9, role := Role.teacher }

/-- Sample user for pagination scenarios. -/
def sampleUser : User :=
  { id := 3, username := "carol", email := "carol@example.com", role := Role.student }

/-- Claim C1 (code bug evaluation): the feedback route accepts grade 0 as a
valid grade, yet addFeedback tests JavaScript truthiness of the grade, so a
grade of 0 is stored in the feedback subdocument while the status becomes
reviewed rather than graded. -/
theorem feedback_grade_zero_gives_reviewed :
    feedbackValidationErrors "solid work" (some 0) = [] ∧
    (feedbackHandler 7 "solid work" (some 0) sampleSubmitted 99).1 = 200 ∧
    (feedbackHandler 7 "solid work" (some 0) sampleSubmitted 99).2.status = Status.reviewed ∧
    (feedbackHandler 7 "solid work" (some 0) sampleSubmitted 99).2.feedback =
      some { teacher := 7, comment := "solid work", grade := some 0, feedbackAt := 99 } ∧
    Status.reviewed ≠ Status.graded := by
  refine ⟨by decide, by decide, by decide, by decide, by decide⟩

/-- Claim C2 (counterexample): a submission that already carries feedback
and sits in the graded state is moved to the analyzed state by a fresh
successful analysis, so status does not keep the feedback-derived value. -/
theorem analysis_after_feedback_changes_status :
    gradedSample.feedback ≠ none ∧
    gradedSample.status = Status.graded ∧
    (analyzeHandler gradedSample (AIOutcome.ok "report") 9).2.status = Status.analyzed ∧
    Status.analyzed ≠ Status.graded := by
  refine ⟨by decide, by decide, by decide, by decide⟩

/-- Claim C2 (amended): completing a fresh analysis always sets status to
analyzed, also on a submission holding feedback; the feedback subdocument
itself is preserved and the analysis subdocument is overwritten. -/
theorem addAnalysis_sets_analyzed_preserves_feedback (c : Code) (r : String) (now : Nat) :
    (c.addAnalysis r now).status = Status.analyzed ∧
    (c.addAnalysis r now).analysis = some { result := r, analyzedAt := now } ∧
    (c.addAnalysis r now).feedback = c.feedback :=
  ⟨rfl, rfl, rfl⟩

/-- Claim C6: when the external AI call fails the handler returns before
any write, so the submission is returned unchanged in both failure modes;
a refused connection yields 503, distinguished from the 500 of any other
failure. -/
theorem analyze_failure_preserves_submission (c : Code) (now : Nat) :
    analyzeHandler c AIOutcome.connRefused now = (503, c) ∧
    analyzeHandler c AIOutcome.otherFailure now = (500, c) ∧
    (503 : Nat) ≠ 500 :=
  ⟨rfl, rfl, by decide⟩

/-- Sample teacher user in the demo identity store. -/
def demoTeacher : User :=
  { id := 1, username := "teach", email := "t@example.com", role := Role.teacher }

/-- Sample student user in the demo identity store. -/
def demoStudent : User :=
  { id := 2, username := "stu", email := "s@example.com", role := Role.student }

/-- Demo identity store holding one teacher and one student. -/
def demoUsers : List User := [demoTeacher, demoStudent]

/-- Demo submission store holding one code of the student and one of
another owner. -/
def demoCodes : List Code := [{ sampleSubmitted with user := 2 }, sampleSubmitted]

/-- Claim C3 (counterexample): when the requested username and the
requested email both duplicate the same existing user, the reported
conflict reason is the email one, not the username one. -/
theorem createUser_both_duplicate_reports_email :
    existingAlice.username = "alice" ∧
    existingAlice.email = "alice@example.com" ∧
    createUserHandler [existingAlice] 2 "alice" "alice@example.com" =
      CreateUserResult.conflict "Email already exists" ∧
    "Email already exists" ≠ "Username already taken" := by
  refine ⟨rfl, rfl, by decide, by decide⟩

/-- Claim C3 (amended): the conflict reason is determined by the matched
duplicate, with the email condition tested first: the reason is Email
already exists when the email of the found user equals the requested
email, and Username already taken only otherwise. -/
theorem createUser_conflict_reason (users : List User) (nextId : Nat)
    (username email : String) (u : User)
    (h : findExistingUser users email username = some u) :
    createUserHandler users nextId username email =
      CreateUserResult.conflict
        (if u.email == email then "Email already exists" else "Username already taken") := by
  unfold createUserHandler
  rw [h]

/-- Witness for the amended C3 theorem at a concrete duplicate email. -/
theorem createUser_conflict_reason_witness :
    createUserHandler [existingAlice] 2 "bob" "alice@example.com" =
      CreateUserResult.conflict "Email already exists" := by
  have h := createUser_conflict_reason [existingAlice] 2 "bob" "alice@example.com"
    existingAlice rfl
  exact h.trans (by decide)

/-- Claim C4: a successful owner edit, from any state, answers 200, resets
the status to submitted, clears the analysis and leaves the feedback
subdocument unchanged. -/
theorem edit_resets_status_preserves_feedback (a : Actor) (c : Code)
    (title : String) (description : Option String) (language : Language)
    (content : String) (tags : Option (List String))
    (hv : codeValidationErrors title content = [])
    (howner : a.id = c.user) :
    (putCodeHandler a c title description language content tags).1 = 200 ∧
    (putCodeHandler a c title description language content tags).2.status = Status.submitted ∧
    (putCodeHandler a c title description language content tags).2.analysis = none ∧
    (putCodeHandler a c title description language content tags).2.feedback = c.feedback := by
  simp [putCodeHandler, hv, howner, Code.applyEdit]

/-- Witness for the C4 theorem at a graded sample. -/
theorem edit_resets_status_witness :
    (putCodeHandler { id := 1, role := Role.student } gradedSample
      "T2" none Language.python "y" none).2.status = Status.submitted ∧
    (putCodeHandler { id := 1, role := Role.student } gradedSample
      "T2" none Language.python "y" none).2.feedback = gradedSample.feedback := by
  have h := edit_resets_status_preserves_feedback { id := 1, role := Role.student }
    gradedSample "T2" none Language.python "y" none (by decide) rfl
  exact ⟨h.2.1, h.2.2.2⟩

/-- Claim C5: on a found document with a valid body, read and delete are
allowed exactly for the owner or any teacher, while a content update is
allowed exactly for the owner, so a teacher who is not the owner is denied
the update; every denial is a 403. -/
theorem code_route_authorization (a : Actor) (c : Code)
    (title : String) (description : Option String) (language : Language)
    (content : String) (tags : Option (List String))
    (hv : codeValidationErrors title content = []) :
    getCodeHandler a c = (if c.user = a.id ∨ a.role = Role.teacher then 200 else 403) ∧
    deleteCodeHandler a c = (if c.user = a.id ∨ a.role = Role.teacher then 200 else 403) ∧
    (putCodeHandler a c title description language content tags).1 =
      (if c.user = a.id then 200 else 403) := by
  have hv2 : ¬ codeValidationErrors title content ≠ [] := fun hne => hne hv
  refine ⟨?_, ?_, ?_⟩
  · unfold getCodeHandler
    split_ifs <;> first | rfl | tauto
  · unfold deleteCodeHandler
    split_ifs <;> first | rfl | tauto
  · unfold putCodeHandler
    rw [if_neg hv2]
    split_ifs <;> first | rfl | tauto

/-- Witness for the C5 theorem: a teacher who is not the owner may read but
not update. -/
theorem code_route_authorization_witness :
    getCodeHandler teacherActor taggedSample = 200 ∧
    (putCodeHandler teacherActor taggedSample "T" none Language.c "x" none).1 = 403 := by
  have h := code_route_authorization teacherActor taggedSample
    "T" none Language.c "x" none (by decide)
  exact ⟨h.1.trans (by decide), h.2.2.trans (by decide)⟩

/-- Claim C7: a feedback request whose grade lies outside 0 to 100 is
rejected with a nonempty structured error list and no mutation, while a
request without a grade passes validation and yields the reviewed
status. -/
theorem feedback_invalid_grade_rejected (teacherId : Nat) (comment : String)
    (c : Code) (now : Nat) (g : Int)
    (hc : jsTrim comment ≠ "") (hg : g < 0 ∨ 100 < g) :
    feedbackHandler teacherId comment (some g) c now = (400, c) ∧
    feedbackValidationErrors comment (some g) ≠ [] ∧
    (feedbackHandler teacherId comment none c now).1 = 200 ∧
    (feedbackHandler teacherId comment none c now).2.status = Status.reviewed := by
  have hgg : ¬ (0 ≤ g ∧ g ≤ 100) := by omega
  have herr : feedbackValidationErrors comment (some g) ≠ [] := by
    simp [feedbackValidationErrors, hc, hgg]
  have hok : feedbackValidationErrors comment none = [] := by
    simp [feedbackValidationErrors, hc]
  refine ⟨?_, herr, ?_, ?_⟩
  · simp [feedbackHandler, herr]
  · simp [feedbackHandler, hok]
  · simp [feedbackHandler, hok, Code.addFeedback, jsTruthy]

/-- Witness for the C7 theorem at grade 150. -/
theorem feedback_invalid_grade_witness :
    feedbackHandler 7 "ok" (some 150) sampleSubmitted 3 = (400, sampleSubmitted) ∧
    (feedbackHandler 7 "ok" none sampleSubmitted 3).2.status = Status.reviewed := by
  have h := feedback_invalid_grade_rejected 7 "ok" sampleSubmitted 3 150
    (by decide) (by decide)
  exact ⟨h.1, h.2.2.2⟩

/-- Claim C8: deleting a user found by id is denied with 403 and no state
change when the target is a teacher; when the target is a student the
handler answers 200 and the stores keep exactly the users and codes not
belonging to the target id, so no submission of the deleted student
remains. -/
theorem deleteUser_cascades (users : List User) (codes : List Code)
    (targetId : Nat) (u : User)
    (hfind : users.find? (fun v => v.id == targetId) = some u) :
    (u.role = Role.teacher →
      deleteUserHandler users codes targetId = (403, users, codes)) ∧
    (u.role ≠ Role.teacher →
      (deleteUserHandler users codes targetId).1 = 200 ∧
      (∀ k, k ∈ (deleteUserHandler users codes targetId).2.2 ↔
        k ∈ codes ∧ k.user ≠ targetId) ∧
      (∀ v, v ∈ (deleteUserHandler users codes targetId).2.1 ↔
        v ∈ users ∧ v.id ≠ targetId)) := by
  have hred : deleteUserHandler users codes targetId =
      if u.role = Role.teacher then (403, users, codes)
      else (200, users.filter (fun v => v.id != targetId),
                 codes.filter (fun c => c.user != targetId)) := by
    simp only [deleteUserHandler, hfind]
  constructor
  · intro hT
    rw [hred, if_pos hT]
  · intro hT
    rw [hred, if_neg hT]
    refine ⟨rfl, ?_, ?_⟩
    · intro k
      simp [List.mem_filter]
    · intro v
      simp [List.mem_filter]

/-- Witness for the C8 theorem: deleting the demo student succeeds and the
student-owned code is exactly what disappears from the code store. -/
theorem deleteUser_cascades_witness :
    (deleteUserHandler demoUsers demoCodes 2).1 = 200 ∧
    (({ sampleSubmitted with user := 2 } : Code) ∈ (deleteUserHandler demoUsers demoCodes 2).2.2 ↔
      ({ sampleSubmitted with user := 2 } : Code) ∈ demoCodes ∧
      ({ sampleSubmitted with user := 2 } : Code).user ≠ 2) := by
  have h := deleteUser_cascades demoUsers demoCodes 2 demoStudent rfl
  have h2 := h.2 (by decide)
  exact ⟨h2.1, h2.2.1 _⟩

/-- Claim C9: the student listing page of 1-indexed page number p and page
size limit holds exactly min limit (total - (p - 1) * limit) items, the
reported total page count is the ceiling of total over limit, and the
concrete listing of 15 students with page 1 and limit 5 returns exactly 5
items with 3 total pages. -/
theorem students_pagination_spec (l : List User) (page limit : Nat) :
    (paginate l page limit).length = min limit (l.length - (page - 1) * limit) ∧
    totalPages l.length limit = l.length ⌈/⌉ limit ∧
    (paginate (List.replicate 15 sampleUser) 1 5).length = 5 ∧
    totalPages 15 5 = 3 := by
  refine ⟨?_, ?_, ?_, rfl⟩
  · simp [paginate]
  · rw [Nat.ceilDiv_eq_add_pred_div]
    rfl
  · rfl

/-- Claim C10 (counterexample): an owner update that supplies an empty tag
list clears previously set tags, because a JavaScript array is truthy even
when empty. -/
theorem edit_empty_tags_clear_previous :
    taggedSample.tags = ["arrays"] ∧
    (putCodeHandler { id := 1, role := Role.student } taggedSample
      "T2" none Language.c "x" (some [])).1 = 200 ∧
    (putCodeHandler { id := 1, role := Role.student } taggedSample
      "T2" none Language.c "x" (some [])).2.tags = [] := by
  refine ⟨rfl, by decide, by decide⟩

/-- Claim C10 (amended): in the update block an absent or empty description
keeps the prior value and a nonempty description replaces it; absent tags
keep the prior value but any supplied tag list, the empty list included,
replaces the tags; title, language and code are always replaced. -/
theorem edit_field_replacement (c : Code) (title : String) (lang : Language)
    (content : String) (d : String) (ts : List String) (hd : d ≠ "") :
    (c.applyEdit title none lang content none).description = c.description ∧
    (c.applyEdit title (some "") lang content none).description = c.description ∧
    (c.applyEdit title (some d) lang content none).description = some d ∧
    (c.applyEdit title none lang content none).tags = c.tags ∧
    (c.applyEdit title none lang content (some ts)).tags = ts ∧
    (c.applyEdit title (some d) lang content (some ts)).title = title ∧
    (c.applyEdit title (some d) lang content (some ts)).language = lang ∧
    (c.applyEdit title (some d) lang content (some ts)).code = content := by
  simp [Code.applyEdit, hd]

/-- Witness for the amended C10 theorem. -/
theorem edit_field_replacement_witness :
    (taggedSample.applyEdit "T" (some "nd") Language.c "y" none).description = some "nd" ∧
    (taggedSample.applyEdit "T" none Language.c "y" none).tags = taggedSample.tags := by
  have h := edit_field_replacement taggedSample "T" Language.c "y" "nd" [] (by decide)
  exact ⟨h.2.2.1, h.2.2.2.1⟩

end CodeSpace
